import Mathlib

/-!
Verification of the M-Translate real-time transcription/translation pipeline.

The definitions below are a shallow embedding of the JavaScript backend:

* part_006 (second websocket module): session state, the audio-data handler
  dispatch condition, processBatchTranscription (silence check, duplicate
  suppression, punctuation, translation, emission), and the
  stop-transcription handler;
* backend/translation.js: the translation cache (getCacheKey, addToCache,
  getFromCache) and translateText;
* stt-providers (part_002): the provider registry, setSTTProvider and
  transcribeBuffer;
* backend/whisper.js, backend/google-speech.js, deepgram (part_003): the
  per-provider transcribeBuffer catch behaviour.

Modelling conventions:
* JS strings are Lean String; .length counts characters (the sources only
  compare lengths of transcripts, where UTF-16 units and characters agree
  for the texts at issue).
* The float threshold comparisons (len greater than last*1.2 etc.) are
  embedded as exact cross-multiplied natural-number comparisons; for all
  realistic string lengths the IEEE-double comparison in the source and the
  rational comparison decide identically (1.2, 0.8, 1.1, 0.9 round so that
  the comparison against an integer length never flips).
* Timestamps (Date.now()) are Int milliseconds.
* External async backends (STT providers, DeepL, the AI punctuation module,
  which is not part of the provided sources) are oracle parameters; a
  throwing call is an Except.error result.
* Audio buffers are lists of Int16 samples; the JS byte buffer stores each
  sample as two little-endian bytes, so the byte length tested against the
  thresholds is twice the sample count.
-/

/-- JS String.prototype.startsWith on character lists: the second list is a
prefix of the first. -/
def jsStartsWith : List Char → List Char → Bool
  | _, [] => true
  | [], _ :: _ => false
  | a :: as, b :: bs => a == b && jsStartsWith as bs

/-- JS String.prototype.includes on character lists: the second list occurs
contiguously inside the first. -/
def jsIncludesL : List Char → List Char → Bool
  | [], nee => nee.isEmpty
  | a :: t, nee => jsStartsWith (a :: t) nee || jsIncludesL t nee

/-- JS String.prototype.trim on character lists. -/
def jsTrimL (l : List Char) : List Char :=
  ((l.dropWhile Char.isWhitespace).reverse.dropWhile Char.isWhitespace).reverse

/-- JS text.trim() (String.trim of the Lean core does not reduce in the
kernel, so the charwise equivalent is used). -/
def jsTrim (s : String) : String := String.mk (jsTrimL s.data)

/-- JS text.toLowerCase(), charwise. -/
def jsToLowerCase (s : String) : String := String.mk (s.data.map Char.toLower)

/-- JS hay.includes(nee) for strings. -/
def jsIncludes (hay nee : String) : Bool :=
  jsIncludesL hay.data nee.data

/-- Interim duplicate check of processBatchTranscription (part_006 lines
608-611): the new transcript counts as significantly different when the last
transcript is empty, or it is more than 20 percent longer, or more than
20 percent shorter, or neither contains the other.  The float comparisons
raw.length greater than last.length * 1.2 and raw.length less than
last.length * 0.8 are embedded as 6*last less than 5*raw and 5*raw less than
4*last. -/
def isSignificantlyDifferent (rawTranscript lastTranscript : String) : Bool :=
  lastTranscript.isEmpty
    || 6 * lastTranscript.length < 5 * rawTranscript.length
    || 5 * rawTranscript.length < 4 * lastTranscript.length
    || (!(jsIncludes rawTranscript lastTranscript)
        && !(jsIncludes lastTranscript rawTranscript))

/-- Final duplicate check of the stop-transcription handler (part_006 lines
474-477): same shape with the 10 percent thresholds (1.1 and 0.9 embedded as
11/10 and 9/10). -/
def isFinalDifferent (finalRawTranscript lastTranscript : String) : Bool :=
  lastTranscript.isEmpty
    || 11 * lastTranscript.length < 10 * finalRawTranscript.length
    || 10 * finalRawTranscript.length < 9 * lastTranscript.length
    || (!(jsIncludes finalRawTranscript lastTranscript)
        && !(jsIncludes lastTranscript finalRawTranscript))

/-- Modelled from the spec words of claim C1: a new transcript is worth
emitting (non-duplicate) when the last transcript is empty, or the new
length exceeds the last length by more than the ratio (20 percent for
interim results, 10 percent for finals), or it is shorter by more than the
symmetric ratio, or neither string contains the other as a substring. -/
def specWorthEmitting (isFinal : Bool) (newText lastText : String) : Bool :=
  lastText.isEmpty
    || (if isFinal then 11 * lastText.length < 10 * newText.length
        else 6 * lastText.length < 5 * newText.length)
    || (if isFinal then 10 * newText.length < 9 * lastText.length
        else 5 * newText.length < 4 * lastText.length)
    || (!(jsIncludes newText lastText) && !(jsIncludes lastText newText))

/-- Per-connection session record of the orchestrating websocket module
(part_006 lines 293-304). -/
structure ClientConnection where
  audioBuffer : List Int
  isTranscribing : Bool
  lastTranscriptionTime : Int
  lastTranscript : String
  lastTranslation : String
  speechLanguage : String
  translationFrom : String
  translationTo : String
  aiPunctuationEnabled : Bool
  punctuationStyle : String
  deriving Repr, DecidableEq

/-- Session defaults installed on connection (part_006 lines 293-304). -/
def initialClientConnection : ClientConnection where
  audioBuffer := []
  isTranscribing := false
  lastTranscriptionTime := 0
  lastTranscript := ""
  lastTranslation := ""
  speechLanguage := "cs-CZ"
  translationFrom := "cs"
  translationTo := "en"
  aiPunctuationEnabled := true
  punctuationStyle := "formal"

/-- Events the orchestrator emits to the connection (the fields the claims
talk about; timestamp and speaker strings are omitted). -/
inductive PipelineEvent where
  | transcriptionResult (transcript translation : String) (confidence : ℚ)
      (isFinal punctuated : Bool)
  | transcriptionErrorEv (msg : String)
  | transcriptionStopped
  deriving Repr, DecidableEq

/-- Result shape returned by sttProviders.transcribeBuffer as consumed by the
websocket module. -/
structure SttResult where
  transcript : String
  confidence : ℚ
  errMsg : Option String
  deriving Repr, DecidableEq

/-- Result shape of aiPunctuation.addPunctuation as consumed by the websocket
module (processed flag plus text). -/
structure PunctResult where
  processed : Bool
  text : String
  deriving Repr, DecidableEq

/-- Value shapes the websocket module distinguishes when inspecting the
return of translation.translateText: a falsy non-object (null or the empty
string), a plain string, or an object carrying translatedText and the
optional translationFailed flag. -/
inductive TranslateValue where
  | nullLike
  | strv (s : String)
  | objv (translatedText : String) (translationFailed : Bool)
  deriving Repr, DecidableEq

/-- STT oracle: buffer samples and language to recognition result.  The
registry call never throws (claim C9), so the oracle is total. -/
abbrev SttOracle := List Int → String → SttResult

/-- Punctuation oracle: text, language, style, isTranslation flag; a thrown
call is Except.error. -/
abbrev PunctOracle := String → String → String → Bool → Except String PunctResult

/-- Translation oracle as invoked by the websocket module with
(text, translationFrom, translationTo); a thrown call is Except.error. -/
abbrev TransOracle := String → String → String → Except String TranslateValue

/-- JS s or fallback for strings: the empty string is falsy. -/
def jsOrString (s fallback : String) : String :=
  if s = "" then fallback else s

/-- Silence check of processBatchTranscription (part_006 lines 586-587): the
buffer has sound when some Int16 sample has absolute value above 100. -/
def hasSound (samples : List Int) : Bool :=
  samples.any (fun s => 100 < s.natAbs)

/-- Bytes of trailing audio kept after an interim dispatch (part_006 line
721). -/
def keepBufferSize : Nat := 16000

/-- Tail end of processBatchTranscription (part_006 lines 695-724): decide
whether the translation differs from the last one, emit the interim result
if so, then update the tracking variables and trim the buffer to the last
keepBufferSize bytes (keepBufferSize / 2 samples). -/
def interimEmitStage (punctuatedTranscript punctuatedTranslation : String)
    (confidence : ℚ) (now : Int) (c : ClientConnection) :
    List PipelineEvent × ClientConnection :=
  let isTranslationDifferent :=
    c.lastTranslation.isEmpty || punctuatedTranslation != c.lastTranslation
  let events :=
    if isTranslationDifferent then
      [PipelineEvent.transcriptionResult punctuatedTranscript punctuatedTranslation
        (if confidence = 0 then (9 : ℚ) / 10 else confidence) false true]
    else []
  let buf :=
    if keepBufferSize < 2 * c.audioBuffer.length then
      c.audioBuffer.drop (c.audioBuffer.length - keepBufferSize / 2)
    else c.audioBuffer
  (events,
    { c with
      lastTranscriptionTime := now
      lastTranscript := punctuatedTranscript
      lastTranslation := punctuatedTranslation
      audioBuffer := buf })

/-- Transcript punctuation step shared by the interim path (part_006 lines
622-644) and the final path (lines 486-507): when enabled, call the
punctuation backend on the untrimmed transcript; keep the raw transcript
when the call is skipped, not processed, or throws. -/
def applyTranscriptPunctuation (punct : PunctOracle) (c : ClientConnection)
    (sttTranscript rawTranscript : String) : String :=
  if c.aiPunctuationEnabled then
    match punct sttTranscript c.translationFrom c.punctuationStyle false with
    | Except.ok pr => if pr.processed then pr.text else rawTranscript
    | Except.error _ => rawTranscript
  else rawTranscript

/-- Interim translation step (part_006 lines 646-693): translate the
punctuated transcript, fall back to it on a falsy or thrown result, then
punctuate the translation when it is non-empty, differs from the
transcript, did not fail, and punctuation is enabled. -/
def interimTranslate (punct : PunctOracle) (transOracle : TransOracle)
    (c : ClientConnection) (punctuatedTranscript : String) : String :=
  match transOracle punctuatedTranscript c.translationFrom c.translationTo with
  | Except.error _ => punctuatedTranscript
  | Except.ok tv =>
    let translatedText :=
      match tv with
      | TranslateValue.objv t _ => jsOrString t punctuatedTranscript
      | TranslateValue.strv s => jsOrString s punctuatedTranscript
      | TranslateValue.nullLike => punctuatedTranscript
    let translationFailed :=
      match tv with
      | TranslateValue.objv _ f => f
      | _ => false
    if translatedText != "" && translatedText != punctuatedTranscript
        && !translationFailed && c.aiPunctuationEnabled then
      match punct translatedText c.translationTo c.punctuationStyle true with
      | Except.ok pr => if pr.processed then pr.text else translatedText
      | Except.error _ => translatedText
    else translatedText

/-- processBatchTranscription (part_006 lines 581-735): silence suppression,
recognition, trimming, interim duplicate check, punctuation, translation
and the emit stage.  The final Nat counts recognition (transcribeBuffer)
calls made by the run. -/
def processBatchTranscription (stt : SttOracle) (punct : PunctOracle)
    (transOracle : TransOracle) (now : Int) (c : ClientConnection) :
    List PipelineEvent × ClientConnection × Nat :=
  if !hasSound c.audioBuffer then
    ([], { c with lastTranscriptionTime := now, audioBuffer := [] }, 0)
  else
    let result := stt c.audioBuffer c.speechLanguage
    if jsTrim result.transcript = "" then ([], c, 1)
    else
      let rawTranscript := jsTrim result.transcript
      if !isSignificantlyDifferent rawTranscript c.lastTranscript then
        ([], { c with lastTranscriptionTime := now }, 1)
      else
        let punctuatedTranscript :=
          applyTranscriptPunctuation punct c result.transcript rawTranscript
        let punctuatedTranslation :=
          interimTranslate punct transOracle c punctuatedTranscript
        let r := interimEmitStage punctuatedTranscript punctuatedTranslation
          result.confidence now c
        (r.1, r.2, 1)

/-- Byte threshold of the audio-data handler (part_006 line 430): 2 seconds
of 16 kHz mono 16-bit audio. -/
def bufferSizeThreshold : Nat := 16000 * 2

/-- Minimum milliseconds between dispatches (part_006 line 431). -/
def minAudioDuration : Int := 1000

/-- Dispatch condition of the audio-data handler (part_006 line 441): byte
length of the accumulated buffer at threshold and enough time elapsed. -/
def audioDataShouldDispatch (c : ClientConnection) (now : Int) : Bool :=
  decide (bufferSizeThreshold ≤ 2 * c.audioBuffer.length)
    && decide (minAudioDuration ≤ now - c.lastTranscriptionTime)

/-- audio-data handler (part_006 lines 409-451): drop the frame when not
transcribing; otherwise append it and run processBatchTranscription exactly
when the dispatch condition holds.  The first component records whether a
dispatch happened; the last counts recognition calls. -/
def audioDataHandler (stt : SttOracle) (punct : PunctOracle)
    (transOracle : TransOracle) (c : ClientConnection)
    (audioData : List Int) (now : Int) :
    Bool × List PipelineEvent × ClientConnection × Nat :=
  if !c.isTranscribing then (false, [], c, 0)
  else
    let c1 := { c with audioBuffer := c.audioBuffer ++ audioData }
    if audioDataShouldDispatch c1 now then
      let r := processBatchTranscription stt punct transOracle now c1
      (true, r.1, r.2.1, r.2.2)
    else (false, [], c1, 0)

/-- Final translation step of the stop-transcription handler (part_006 lines
510-548): like the interim step but without the translationFailed guard on
the punctuation of the translation. -/
def finalTranslate (punct : PunctOracle) (transOracle : TransOracle)
    (c : ClientConnection) (punctuatedTranscript : String) : String :=
  match transOracle punctuatedTranscript c.translationFrom c.translationTo with
  | Except.error _ => punctuatedTranscript
  | Except.ok tv =>
    let translatedText :=
      match tv with
      | TranslateValue.objv t _ => jsOrString t punctuatedTranscript
      | TranslateValue.strv s => jsOrString s punctuatedTranscript
      | TranslateValue.nullLike => punctuatedTranscript
    if translatedText != "" && translatedText != punctuatedTranscript
        && c.aiPunctuationEnabled then
      match punct translatedText c.translationTo c.punctuationStyle true with
      | Except.ok pr => if pr.processed then pr.text else translatedText
      | Except.error _ => translatedText
    else translatedText

/-- stop-transcription handler (part_006 lines 454-571): stop transcribing;
with a non-empty buffer run recognition once, suppress a final transcript
too similar to the last interim (early return, buffer kept), otherwise
punctuate, translate and emit one final result; the buffer is cleared at
the end of the non-suppressed paths.  The Nat counts recognition runs. -/
def stopTranscription (stt : SttOracle) (punct : PunctOracle)
    (transOracle : TransOracle) (c : ClientConnection) :
    List PipelineEvent × ClientConnection × Nat :=
  let c0 := { c with isTranscribing := false }
  if c0.audioBuffer.isEmpty then
    ([], { c0 with audioBuffer := [] }, 0)
  else
    let result := stt c0.audioBuffer c0.speechLanguage
    if jsTrim result.transcript = "" then
      ([], { c0 with audioBuffer := [] }, 1)
    else
      let finalRawTranscript := jsTrim result.transcript
      if !isFinalDifferent finalRawTranscript c0.lastTranscript then
        ([], c0, 1)
      else
        let punctuatedTranscript :=
          applyTranscriptPunctuation punct c0 result.transcript finalRawTranscript
        let punctuatedTranslation :=
          finalTranslate punct transOracle c0 punctuatedTranscript
        ([PipelineEvent.transcriptionResult punctuatedTranscript punctuatedTranslation
            (if result.confidence = 0 then (9 : ℚ) / 10 else result.confidence) true true],
          { c0 with audioBuffer := [] }, 1)

/-- A translation result object as built by translateText
(backend/translation.js); timestamp strings are omitted. -/
structure TranslationRecord where
  originalText : String
  translatedText : String
  sourceLanguage : String
  targetLanguage : String
  errMsg : Option String
  fromCache : Bool
  deriving Repr, DecidableEq

/-- A stored cache value: the spread of the result object plus the cachedAt
stamp (backend/translation.js lines 42-45). -/
structure CacheEntry where
  record : TranslationRecord
  cachedAt : Int
  deriving Repr, DecidableEq

/-- The translation cache: a JS Map in insertion order, keys unique. -/
abbrev Cache := List (String × CacheEntry)

/-- First value bound to a key (JS Map.get). -/
def mapFind? {α : Type} (k : String) : List (String × α) → Option α
  | [] => none
  | (k1, v) :: rest => if k1 = k then some v else mapFind? k rest

/-- JS Map.set: overwrite the first binding of the key in place, else append
at the end. -/
def mapSet {α : Type} (k : String) (v : α) : List (String × α) → List (String × α)
  | [] => [(k, v)]
  | (k1, v1) :: rest =>
    if k1 = k then (k, v) :: rest else (k1, v1) :: mapSet k v rest

/-- JS Map.delete: drop the first binding of the key. -/
def mapDelete {α : Type} (k : String) : List (String × α) → List (String × α)
  | [] => []
  | (k1, v1) :: rest =>
    if k1 = k then rest else (k1, v1) :: mapDelete k rest

/-- CACHE_MAX_SIZE (backend/translation.js line 8). -/
def CACHE_MAX_SIZE : Nat := 1000

/-- CACHE_TTL in milliseconds (backend/translation.js line 9). -/
def CACHE_TTL : Int := 24 * 60 * 60 * 1000

/-- getCacheKey (backend/translation.js lines 31-33): lower-cased, trimmed
text joined with the target language by a pipe character. -/
def getCacheKey (text targetLanguage : String) : String :=
  jsTrim (jsToLowerCase text) ++ "|" ++ targetLanguage

/-- addToCache (backend/translation.js lines 35-46): when the cache is at
capacity delete the first-inserted key, then insert the entry stamped with
the current time. -/
def addToCache (now : Int) (key : String) (result : TranslationRecord)
    (c : Cache) : Cache :=
  let c1 : Cache :=
    if CACHE_MAX_SIZE ≤ c.length then
      match c with
      | [] => []
      | (firstKey, _) :: _ => mapDelete firstKey c
    else c
  mapSet key { record := result, cachedAt := now } c1

/-- getFromCache (backend/translation.js lines 48-59): a missing key is a
miss; an entry older than CACHE_TTL is deleted and treated as a miss; a
fresh entry is returned with the cache untouched. -/
def getFromCache (now : Int) (key : String) (c : Cache) :
    Option CacheEntry × Cache :=
  match mapFind? key c with
  | none => (none, c)
  | some e =>
    if CACHE_TTL < now - e.cachedAt then (none, mapDelete key c)
    else (some e, c)

/-- Return values of translateText as its callers see them: null when the
translator is not initialized, the empty string for empty input, or a
result object. -/
inductive TranslateReturn where
  | nullv
  | emptyStr
  | record (r : TranslationRecord)
  deriving Repr, DecidableEq

/-- translateText (backend/translation.js lines 91-154), with the DeepL
backend as an oracle.  Returns the value, the updated cache, and how many
backend calls were issued.  The catch branch returns a record whose
translatedText is the bracketed error message, with the original text only
in originalText. -/
def translateText (translatorAvailable : Bool)
    (backend : String → Except String String) (now : Int)
    (text targetLanguage : String) (c : Cache) :
    TranslateReturn × Cache × Nat :=
  if !translatorAvailable then (TranslateReturn.nullv, c, 0)
  else if (jsTrim text).length = 0 then (TranslateReturn.emptyStr, c, 0)
  else
    let cacheKey := getCacheKey text targetLanguage
    match getFromCache now cacheKey c with
    | (some cached, c1) =>
      (TranslateReturn.record { cached.record with fromCache := true }, c1, 0)
    | (none, c1) =>
      match backend text with
      | Except.ok translated =>
        let translationResult : TranslationRecord :=
          { originalText := text
            translatedText := translated
            sourceLanguage := "cs"
            targetLanguage := targetLanguage
            errMsg := none
            fromCache := false }
        (TranslateReturn.record translationResult,
          addToCache now cacheKey translationResult c1, 1)
      | Except.error msg =>
        (TranslateReturn.record
          { originalText := text
            translatedText := "[Translation Error: " ++ msg ++ "]"
            sourceLanguage := "cs"
            targetLanguage := targetLanguage
            errMsg := some msg
            fromCache := false }, c1, 1)

/-- The STT provider registry (part_002 lines 9-13), as key-id pairs of the
STT_PROVIDERS object. -/
def STT_PROVIDERS : List (String × String) :=
  [("GOOGLE_SPEECH", "google-speech"),
   ("OPENAI_WHISPER", "openai-whisper"),
   ("DEEPGRAM_NOVA3", "deepgram-nova-3")]

/-- Object.values(STT_PROVIDERS): the registered provider ids. -/
def sttProviderIds : List String := STT_PROVIDERS.map Prod.snd

/-- JS str.replace(pat, rep) with one-character strings: replaces only the
FIRST occurrence. -/
def replaceFirstChar (pat rep : Char) : List Char → List Char
  | [] => []
  | a :: rest => if a == pat then rep :: rest else a :: replaceFirstChar pat rep rest

/-- The key normalization inside setSTTProvider (part_002 lines 61-64):
provider.toUpperCase().replace(hyphen, underscore). -/
def sttProviderKey (provider : String) : String :=
  String.mk (replaceFirstChar '-' '_' (provider.data.map Char.toUpper))

/-- setSTTProvider (part_002 lines 60-66): look the normalized key up in
STT_PROVIDERS; none models the thrown Unknown STT provider error, some p the
new current provider. -/
def setSTTProvider (provider : String) : Option String :=
  mapFind? (sttProviderKey provider) STT_PROVIDERS

/-- Outcome of the set-stt-provider socket handler. -/
inductive SttProviderEvent where
  | updated (provider : String)
  | errorEv (availableProviders : List String)
  deriving Repr, DecidableEq

/-- set-stt-provider handler (part_006 lines 341-362): on success the current
provider switches and stt-provider-updated is emitted; on a thrown error the
provider is unchanged and stt-provider-error carries
Object.values(STT_PROVIDERS). -/
def handleSetSttProvider (currentProvider provider : String) :
    String × SttProviderEvent :=
  match setSTTProvider provider with
  | some p => (p, SttProviderEvent.updated provider)
  | none => (currentProvider, SttProviderEvent.errorEv sttProviderIds)

/-- Minimum byte size accepted by the whisper and google transcribeBuffer
implementations (backend/whisper.js line 26, backend/google-speech.js line
20). -/
def minBufferSize : Nat := 16000

/-- whisper.transcribeBuffer (backend/whisper.js lines 17-91) with the
OpenAI call as an oracle: a too-small buffer throws and is caught by the
catch branch, a successful call returns the trimmed API text with the fixed
confidence 0.9, and any thrown error yields the empty transcript, zero
confidence and the error message. -/
def whisperTranscribeBuffer (api : Except String String)
    (audioBuffer : List Int) (_language : String) : SttResult :=
  if 2 * audioBuffer.length < minBufferSize then
    { transcript := "", confidence := 0,
      errMsg := some ("Audio buffer too small: " ++ toString (2 * audioBuffer.length)
        ++ " bytes (minimum: " ++ toString minBufferSize ++ " bytes)") }
  else
    match api with
    | Except.ok text =>
      { transcript := jsTrim text, confidence := (9 : ℚ) / 10, errMsg := none }
    | Except.error msg =>
      { transcript := "", confidence := 0, errMsg := some msg }

/-- google-speech.transcribeBuffer (backend/google-speech.js lines 13-110)
with the REST response as an oracle: none models a response with no
results/alternatives (returned with no error field); some carries the
optional transcript and confidence of the first alternative; a too-small
buffer throws into the catch branch. -/
def googleTranscribeBuffer
    (api : Except String (Option (Option String × Option ℚ)))
    (audioBuffer : List Int) (_language : String) : SttResult :=
  if 2 * audioBuffer.length < minBufferSize then
    { transcript := "", confidence := 0,
      errMsg := some ("Audio buffer too small: " ++ toString (2 * audioBuffer.length)
        ++ " bytes (minimum: " ++ toString minBufferSize ++ " bytes)") }
  else
    match api with
    | Except.ok none => { transcript := "", confidence := 0, errMsg := none }
    | Except.ok (some (topt, copt)) =>
      { transcript := jsTrim (topt.getD ""), confidence := copt.getD 0, errMsg := none }
    | Except.error msg =>
      { transcript := "", confidence := 0, errMsg := some msg }

/-- deepgram.transcribeBuffer (part_003 lines 133-166) with the prerecorded
call as an oracle: the first alternative's optional transcript (default the
empty string) and confidence (default 0.9); thrown errors are caught. -/
def deepgramTranscribeBuffer (api : Except String (Option String × Option ℚ))
    (_language : String) : SttResult :=
  match api with
  | Except.ok (topt, copt) =>
    { transcript := topt.getD "", confidence := copt.getD ((9 : ℚ) / 10), errMsg := none }
  | Except.error msg =>
    { transcript := "", confidence := 0, errMsg := some msg }

/-- sttProviders.transcribeBuffer (part_002 lines 101-133): dispatch on the
current provider id; langMap stands for languages.speechToTranslationLang
(the languages module is not among the provided sources and only transforms
the language hint).  An unknown provider id throws into the outer catch,
which returns the empty-transcript error result; the function is total, so
no failure propagates to the caller. -/
def sttTranscribeBuffer (currentProvider : String)
    (googleApi : Except String (Option (Option String × Option ℚ)))
    (whisperApi : Except String String)
    (deepgramApi : Except String (Option String × Option ℚ))
    (langMap : String → String) (audioBuffer : List Int) (language : String) :
    SttResult :=
  if currentProvider = "google-speech" then
    googleTranscribeBuffer googleApi audioBuffer language
  else if currentProvider = "openai-whisper" then
    whisperTranscribeBuffer whisperApi audioBuffer (langMap language)
  else if currentProvider = "deepgram-nova-3" then
    deepgramTranscribeBuffer deepgramApi (langMap language)
  else
    { transcript := "", confidence := 0,
      errMsg := some ("Provider " ++ currentProvider ++ " not implemented") }

/-- A concrete translation record for the C5 witness. -/
def c5rec : TranslationRecord :=
  { originalText := "a", translatedText := "b", sourceLanguage := "cs",
    targetLanguage := "en", errMsg := none, fromCache := false }

/-- CACHE_MAX_SIZE concrete pairwise-distinct keys (strings of 1 to
CACHE_MAX_SIZE letters), to follow the empty-string key in the C5 witness. -/
def c5keys : List (String × TranslationRecord) :=
  (List.range CACHE_MAX_SIZE).map
    (fun i => (String.mk (List.replicate (i + 1) 'a'), c5rec))

/-- Session state used by the C7 witness: a fresh transcribing session. -/
def c7conn : ClientConnection :=
  { initialClientConnection with isTranscribing := true }

/-- Session state used by the C8 witness: a transcribing session whose
buffer is near-silent. -/
def c8conn : ClientConnection :=
  { initialClientConnection with
    isTranscribing := true
    audioBuffer := [0, 100, -100, 55] }

/-- Session state for the C10 witness: a session that has already emitted
the translation dobry. -/
def c10conn : ClientConnection :=
  { initialClientConnection with
    isTranscribing := true
    lastTranslation := "dobry" }

/-- Session state for the C2 counterexample: a transcribing session with a
non-empty pending buffer. -/
def c2conn : ClientConnection :=
  { initialClientConnection with
    isTranscribing := true
    audioBuffer := [500, 600] }

/-- Session state for the C2 witness. -/
def c2wconn : ClientConnection :=
  { initialClientConnection with
    isTranscribing := true
    audioBuffer := [700] }

/-- Folding a sequence of insertions through addToCache, used to state the
cache invariants. -/
def cacheInsertAll (now : Int) (ps : List (String × TranslationRecord))
    (c : Cache) : Cache :=
  ps.foldl (fun acc p => addToCache now p.1 p.2 acc) c

theorem mapFind?_mapSet_self {α : Type} (k : String) (v : α)
    (c : List (String × α)) : mapFind? k (mapSet k v c) = some v := by
  induction c with
  | nil => simp [mapSet, mapFind?]
  | cons p rest ih =>
    obtain ⟨k1, v1⟩ := p
    by_cases h : k1 = k
    · simp [mapSet, h, mapFind?]
    · simp [mapSet, h, mapFind?, ih]

theorem mapSet_length_le {α : Type} (k : String) (v : α)
    (c : List (String × α)) : (mapSet k v c).length ≤ c.length + 1 := by
  induction c with
  | nil => simp [mapSet]
  | cons p rest ih =>
    obtain ⟨k1, v1⟩ := p
    by_cases h : k1 = k
    · simp [mapSet, h]
    · simp only [mapSet, h, if_false, List.length_cons]
      omega

theorem mapFind?_eq_none_iff {α : Type} (k : String) (l : List (String × α)) :
    mapFind? k l = none ↔ k ∉ l.map Prod.fst := by
  induction l with
  | nil => simp [mapFind?]
  | cons p rest ih =>
    obtain ⟨k1, v1⟩ := p
    by_cases h : k1 = k
    · subst h; simp [mapFind?]
    · have hne : k ≠ k1 := fun he => h he.symm
      simp [mapFind?, h, ih, hne]

theorem mapSet_fresh {α : Type} (k : String) (v : α) (c : List (String × α))
    (h : mapFind? k c = none) : mapSet k v c = c ++ [(k, v)] := by
  induction c with
  | nil => simp [mapSet]
  | cons p rest ih =>
    obtain ⟨k1, v1⟩ := p
    by_cases h1 : k1 = k
    · simp [mapFind?, h1] at h
    · simp [mapFind?, h1] at h
      simp [mapSet, h1, ih h]

theorem mapFind?_append_none {α : Type} (k : String) (c d : List (String × α))
    (hc : mapFind? k c = none) (hd : mapFind? k d = none) :
    mapFind? k (c ++ d) = none := by
  induction c with
  | nil => simpa using hd
  | cons p rest ih =>
    obtain ⟨k1, v1⟩ := p
    by_cases h1 : k1 = k
    · simp [mapFind?, h1] at hc
    · simp [mapFind?, h1] at hc ⊢
      exact ih hc

theorem addToCache_length_le (now : Int) (k : String) (r : TranslationRecord)
    (c : Cache) (h : c.length ≤ CACHE_MAX_SIZE) :
    (addToCache now k r c).length ≤ CACHE_MAX_SIZE := by
  unfold addToCache
  by_cases hfull : CACHE_MAX_SIZE ≤ c.length
  · cases c with
    | nil => simp [CACHE_MAX_SIZE] at hfull
    | cons p rest =>
      obtain ⟨k0, v0⟩ := p
      simp only [hfull, if_true, mapDelete, if_pos rfl]
      have h1 := mapSet_length_le k (⟨r, now⟩ : CacheEntry) rest
      simp only [List.length_cons] at h
      omega
  · simp only [hfull, if_false]
    have h1 := mapSet_length_le k (⟨r, now⟩ : CacheEntry) c
    omega

theorem addToCache_fresh_small (now : Int) (k : String) (r : TranslationRecord)
    (c : Cache) (hlen : c.length < CACHE_MAX_SIZE)
    (hfresh : mapFind? k c = none) :
    addToCache now k r c = c ++ [(k, ⟨r, now⟩)] := by
  unfold addToCache
  have hnf : ¬ CACHE_MAX_SIZE ≤ c.length := by omega
  simp only [hnf, if_false]
  exact mapSet_fresh k _ c hfresh

theorem cacheInsertAll_fresh (now : Int)
    (ps : List (String × TranslationRecord)) (c : Cache)
    (hnodup : (ps.map Prod.fst).Nodup)
    (hfresh : ∀ p ∈ ps, mapFind? p.1 c = none)
    (hlen : c.length + ps.length ≤ CACHE_MAX_SIZE) :
    cacheInsertAll now ps c =
      c ++ ps.map (fun p => (p.1, (⟨p.2, now⟩ : CacheEntry))) := by
  induction ps generalizing c with
  | nil => simp [cacheInsertAll]
  | cons p rest ih =>
    have hp : mapFind? p.1 c = none := hfresh p (by simp)
    have hlt : c.length < CACHE_MAX_SIZE := by
      simp only [List.length_cons] at hlen; omega
    have hstep : addToCache now p.1 p.2 c = c ++ [(p.1, ⟨p.2, now⟩)] :=
      addToCache_fresh_small now p.1 p.2 c hlt hp
    simp only [List.map_cons, List.nodup_cons] at hnodup
    have hkne : ∀ q ∈ rest, ¬ (p.1 = q.1) := by
      intro q hq he
      exact hnodup.1 (he ▸ List.mem_map_of_mem Prod.fst hq)
    have hfresh2 : ∀ q ∈ rest,
        mapFind? q.1 (c ++ [(p.1, (⟨p.2, now⟩ : CacheEntry))]) = none := by
      intro q hq
      refine mapFind?_append_none q.1 c _ (hfresh q (by simp [hq])) ?_
      simp [mapFind?, hkne q hq]
    have hstep2 := ih (c ++ [(p.1, ⟨p.2, now⟩)]) hnodup.2 hfresh2
      (by simp only [List.length_append, List.length_cons,
            List.length_nil] at hlen ⊢; omega)
    calc cacheInsertAll now (p :: rest) c
        = cacheInsertAll now rest (addToCache now p.1 p.2 c) := by
          simp [cacheInsertAll]
      _ = cacheInsertAll now rest (c ++ [(p.1, ⟨p.2, now⟩)]) := by rw [hstep]
      _ = c ++ (p :: rest).map (fun q => (q.1, (⟨q.2, now⟩ : CacheEntry))) := by
          rw [hstep2]; simp

/-- Claim C5: the translation cache never exceeds CACHE_MAX_SIZE entries
under any sequence of insertions through addToCache; inserting
CACHE_MAX_SIZE + 1 distinct keys into the empty cache leaves exactly
CACHE_MAX_SIZE entries with the first-inserted key absent; and a cache hit
leaves the cache unchanged (no promotion on read). -/
theorem C5_cache_capacity_and_eviction :
    (∀ (now : Int) (ps : List (String × TranslationRecord)),
      (cacheInsertAll now ps []).length ≤ CACHE_MAX_SIZE) ∧
    (∀ (now : Int) (p0 : String × TranslationRecord)
        (ps : List (String × TranslationRecord)),
      ((p0 :: ps).map Prod.fst).Nodup → ps.length = CACHE_MAX_SIZE →
      (cacheInsertAll now (p0 :: ps) []).length = CACHE_MAX_SIZE ∧
        mapFind? p0.1 (cacheInsertAll now (p0 :: ps) []) = none) ∧
    (∀ (now : Int) (key : String) (c : Cache) (e : CacheEntry),
      (getFromCache now key c).1 = some e → (getFromCache now key c).2 = c) := by
  refine ⟨?_, ?_, ?_⟩
  · intro now ps
    suffices h : ∀ c : Cache, c.length ≤ CACHE_MAX_SIZE →
        (cacheInsertAll now ps c).length ≤ CACHE_MAX_SIZE from
      h [] (by simp)
    induction ps with
    | nil => intro c hc; simpa [cacheInsertAll] using hc
    | cons p rest ih =>
      intro c hc
      have h1 := addToCache_length_le now p.1 p.2 c hc
      have h2 : cacheInsertAll now (p :: rest) c
          = cacheInsertAll now rest (addToCache now p.1 p.2 c) := by
        simp [cacheInsertAll]
      rw [h2]
      exact ih _ h1
  · intro now p0 ps hnodup hlen
    rcases List.eq_nil_or_concat ps with hnil | ⟨ps1, plast, rfl⟩
    · subst hnil; simp [CACHE_MAX_SIZE] at hlen
    · rw [List.concat_eq_append] at hnodup hlen ⊢
      have hlen1 : ps1.length + 1 = CACHE_MAX_SIZE := by simpa using hlen
      simp only [List.map_cons, List.map_append, List.map_nil,
        List.nodup_cons] at hnodup
      obtain ⟨hp0notin, hrest_nodup⟩ := hnodup
      have hp0a : p0.1 ∉ ps1.map Prod.fst := fun h =>
        hp0notin (List.mem_append.mpr (Or.inl h))
      have hp0b : ¬ (plast.1 = p0.1) := by
        intro h
        exact hp0notin (List.mem_append.mpr (Or.inr (by simp [h])))
      rw [List.nodup_append] at hrest_nodup
      obtain ⟨hps1nodup, -, hdisj⟩ := hrest_nodup
      have hplastnotin : plast.1 ∉ ps1.map Prod.fst := fun h =>
        hdisj h (by simp)
      have hE : cacheInsertAll now (p0 :: ps1) [] =
          (p0.1, (⟨p0.2, now⟩ : CacheEntry)) ::
            ps1.map (fun q => (q.1, (⟨q.2, now⟩ : CacheEntry))) := by
        have h := cacheInsertAll_fresh now (p0 :: ps1) []
          (by simp only [List.map_cons, List.nodup_cons]
              exact ⟨hp0a, hps1nodup⟩)
          (by intro p hp; simp [mapFind?])
          (by simp only [List.length_nil, List.length_cons]; omega)
        simpa using h
      have hsplit : cacheInsertAll now (p0 :: (ps1 ++ [plast])) [] =
          addToCache now plast.1 plast.2 (cacheInsertAll now (p0 :: ps1) []) := by
        show cacheInsertAll now ((p0 :: ps1) ++ [plast]) [] = _
        simp [cacheInsertAll, List.foldl_append]
      have htailkeys : (ps1.map (fun q => (q.1, (⟨q.2, now⟩ : CacheEntry)))).map
          Prod.fst = ps1.map Prod.fst := by
        simp [List.map_map]
      have hfreshlast :
          mapFind? plast.1 (ps1.map (fun q => (q.1, (⟨q.2, now⟩ : CacheEntry))))
            = none := by
        rw [mapFind?_eq_none_iff, htailkeys]; exact hplastnotin
      have hadd : addToCache now plast.1 plast.2
          ((p0.1, (⟨p0.2, now⟩ : CacheEntry)) ::
            ps1.map (fun q => (q.1, (⟨q.2, now⟩ : CacheEntry)))) =
          ps1.map (fun q => (q.1, (⟨q.2, now⟩ : CacheEntry)))
            ++ [(plast.1, (⟨plast.2, now⟩ : CacheEntry))] := by
        unfold addToCache
        have hful : CACHE_MAX_SIZE ≤
            ((p0.1, (⟨p0.2, now⟩ : CacheEntry)) ::
              ps1.map (fun q => (q.1, (⟨q.2, now⟩ : CacheEntry)))).length := by
          simp only [List.length_cons, List.length_map]; omega
        simp only [hful, if_true]
        simp only [mapDelete, if_pos rfl]
        exact mapSet_fresh plast.1 _ _ hfreshlast
      rw [hsplit, hE, hadd]
      constructor
      · simp only [List.length_append, List.length_map, List.length_cons,
          List.length_nil]
        omega
      · refine mapFind?_append_none p0.1 _ _ ?_ ?_
        · rw [mapFind?_eq_none_iff, htailkeys]; exact hp0a
        · simp [mapFind?, hp0b]
  · intro now key c e h
    unfold getFromCache at h ⊢
    cases hf : mapFind? key c with
    | none => rfl
    | some e1 =>
      rw [hf] at h
      by_cases ht : CACHE_TTL < now - e1.cachedAt
      · simp [ht] at h
      · simp [ht]

/-- Witness for claim C5: the eviction statement applied to
CACHE_MAX_SIZE + 1 concrete distinct keys, and the no-promotion statement
applied to a concrete cache hit. -/
theorem C5_witness :
    ((cacheInsertAll 0 (("", c5rec) :: c5keys) []).length = CACHE_MAX_SIZE ∧
      mapFind? "" (cacheInsertAll 0 (("", c5rec) :: c5keys) []) = none) ∧
    (getFromCache 5 "k"
        [("k", ({ record := c5rec, cachedAt := 0 } : CacheEntry))]).2 =
      [("k", ({ record := c5rec, cachedAt := 0 } : CacheEntry))] := by
  have hinj : Function.Injective
      (fun i : ℕ => String.mk (List.replicate (i + 1) 'a')) := by
    intro i j hij
    have h2 : List.replicate (i + 1) 'a' = List.replicate (j + 1) 'a' := by
      injection hij
    have h3 := congrArg List.length h2
    simpa using h3
  have hkeys : c5keys.map Prod.fst =
      (List.range CACHE_MAX_SIZE).map
        (fun i => String.mk (List.replicate (i + 1) 'a')) := by
    simp [c5keys, List.map_map, Function.comp]
  have hnodup : ((("", c5rec) :: c5keys).map Prod.fst).Nodup := by
    simp only [List.map_cons, List.nodup_cons]
    constructor
    · rw [hkeys]
      intro hmem
      obtain ⟨i, -, hi⟩ := List.mem_map.mp hmem
      have h4 := congrArg String.data hi
      simp at h4
    · rw [hkeys]
      exact (List.nodup_range _).map hinj
  have hlen : c5keys.length = CACHE_MAX_SIZE := by
    simp [c5keys]
  exact ⟨C5_cache_capacity_and_eviction.2.1 0 ("", c5rec) c5keys hnodup hlen,
    C5_cache_capacity_and_eviction.2.2 5 "k" _
      ({ record := c5rec, cachedAt := 0 } : CacheEntry) (by decide)⟩

theorem translateText_miss_success (backend : String → Except String String)
    (now : Int) (text targetLanguage t : String) (c : Cache)
    (hne : (jsTrim text).length ≠ 0)
    (hmiss : mapFind? (getCacheKey text targetLanguage) c = none)
    (hok : backend text = Except.ok t) :
    translateText true backend now text targetLanguage c =
      (TranslateReturn.record
        { originalText := text, translatedText := t, sourceLanguage := "cs",
          targetLanguage := targetLanguage, errMsg := none, fromCache := false },
        addToCache now (getCacheKey text targetLanguage)
          { originalText := text, translatedText := t, sourceLanguage := "cs",
            targetLanguage := targetLanguage, errMsg := none, fromCache := false } c,
        1) := by
  unfold translateText
  have hget : getFromCache now (getCacheKey text targetLanguage) c = (none, c) := by
    unfold getFromCache; rw [hmiss]
  simp [hne, hget, hok]

theorem translateText_hit (backend : String → Except String String)
    (now : Int) (text targetLanguage : String) (c : Cache) (e : CacheEntry)
    (hne : (jsTrim text).length ≠ 0)
    (hfind : mapFind? (getCacheKey text targetLanguage) c = some e)
    (hfresh : ¬ CACHE_TTL < now - e.cachedAt) :
    translateText true backend now text targetLanguage c =
      (TranslateReturn.record { e.record with fromCache := true }, c, 0) := by
  unfold translateText
  have hget : getFromCache now (getCacheKey text targetLanguage) c =
      (some e, c) := by
    unfold getFromCache; rw [hfind]; simp [hfresh]
  simp [hne, hget]

/-- Claim C6: the cache key is the lower-cased trimmed source text joined
with the target language; two translate calls within the TTL issue exactly
one backend call, the second returning fromCache true with the identical
translated text; an entry older than the TTL is deleted on access and
treated as a miss. -/
theorem C6_translate_cache_idempotence :
    (∀ text targetLanguage : String,
      getCacheKey text targetLanguage =
        jsTrim (jsToLowerCase text) ++ "|" ++ targetLanguage) ∧
    (∀ (backend : String → Except String String) (now1 now2 : Int)
        (text targetLanguage t : String) (c : Cache),
      mapFind? (getCacheKey text targetLanguage) c = none →
      (jsTrim text).length ≠ 0 →
      backend text = Except.ok t →
      now2 - now1 ≤ CACHE_TTL →
      (translateText true backend now1 text targetLanguage c).2.2 = 1 ∧
      (translateText true backend now1 text targetLanguage c).1 =
        TranslateReturn.record
          { originalText := text, translatedText := t, sourceLanguage := "cs",
            targetLanguage := targetLanguage, errMsg := none, fromCache := false } ∧
      (translateText true backend now2 text targetLanguage
          (translateText true backend now1 text targetLanguage c).2.1).2.2 = 0 ∧
      (translateText true backend now2 text targetLanguage
          (translateText true backend now1 text targetLanguage c).2.1).1 =
        TranslateReturn.record
          { originalText := text, translatedText := t, sourceLanguage := "cs",
            targetLanguage := targetLanguage, errMsg := none, fromCache := true }) ∧
    (∀ (now : Int) (key : String) (c : Cache) (e : CacheEntry),
      mapFind? key c = some e → CACHE_TTL < now - e.cachedAt →
      getFromCache now key c = (none, mapDelete key c)) := by
  refine ⟨fun text tl => rfl, ?_, ?_⟩
  · intro backend now1 now2 text targetLanguage t c hmiss hne hok httl
    have h1 := translateText_miss_success backend now1 text targetLanguage t c
      hne hmiss hok
    have hfind2 : mapFind? (getCacheKey text targetLanguage)
        (addToCache now1 (getCacheKey text targetLanguage)
          { originalText := text, translatedText := t, sourceLanguage := "cs",
            targetLanguage := targetLanguage, errMsg := none, fromCache := false } c) =
        some { record := { originalText := text, translatedText := t,
                           sourceLanguage := "cs",
                           targetLanguage := targetLanguage,
                           errMsg := none, fromCache := false },
               cachedAt := now1 } := by
      unfold addToCache
      exact mapFind?_mapSet_self _ _ _
    have h2 := translateText_hit backend now2 text targetLanguage
      (addToCache now1 (getCacheKey text targetLanguage)
        { originalText := text, translatedText := t, sourceLanguage := "cs",
          targetLanguage := targetLanguage, errMsg := none, fromCache := false } c)
      { record := { originalText := text, translatedText := t,
                    sourceLanguage := "cs", targetLanguage := targetLanguage,
                    errMsg := none, fromCache := false },
        cachedAt := now1 }
      hne hfind2 (by simp only; omega)
    refine ⟨by rw [h1], by rw [h1], ?_, ?_⟩
    · rw [h1, h2]
    · rw [h1, h2]
  · intro now key c e hfind hexp
    unfold getFromCache
    rw [hfind]
    simp [hexp]

/-- Witness for claim C6: the idempotence statement applied to translating
Ahoj into en twice (at times 0 and 5) starting from the empty cache, and the
lazy-expiry statement applied to an entry cached at 0 read at
CACHE_TTL + 1. -/
theorem C6_witness :
    ((translateText true (fun _ => Except.ok "Hello") 0 "Ahoj" "en" []).2.2 = 1 ∧
     (translateText true (fun _ => Except.ok "Hello") 0 "Ahoj" "en" []).1 =
       TranslateReturn.record
         { originalText := "Ahoj", translatedText := "Hello",
           sourceLanguage := "cs", targetLanguage := "en",
           errMsg := none, fromCache := false } ∧
     (translateText true (fun _ => Except.ok "Hello") 5 "Ahoj" "en"
         (translateText true (fun _ => Except.ok "Hello") 0 "Ahoj" "en"
           []).2.1).2.2 = 0 ∧
     (translateText true (fun _ => Except.ok "Hello") 5 "Ahoj" "en"
         (translateText true (fun _ => Except.ok "Hello") 0 "Ahoj" "en"
           []).2.1).1 =
       TranslateReturn.record
         { originalText := "Ahoj", translatedText := "Hello",
           sourceLanguage := "cs", targetLanguage := "en",
           errMsg := none, fromCache := true }) ∧
    getFromCache (CACHE_TTL + 1) "k"
        [("k", { record := { originalText := "k", translatedText := "q",
                             sourceLanguage := "cs", targetLanguage := "en",
                             errMsg := none, fromCache := false },
                 cachedAt := 0 })] =
      (none, mapDelete "k"
        [("k", { record := { originalText := "k", translatedText := "q",
                             sourceLanguage := "cs", targetLanguage := "en",
                             errMsg := none, fromCache := false },
                 cachedAt := 0 })]) :=
  ⟨C6_translate_cache_idempotence.2.1 (fun _ => Except.ok "Hello") 0 5
      "Ahoj" "en" "Hello" [] rfl (by decide) rfl (by decide),
    C6_translate_cache_idempotence.2.2 (CACHE_TTL + 1) "k" _ _ rfl (by decide)⟩

/-- Counterexample for claim C3: with a failing backend, translateText does
not return the original input text as the translation; it returns a
bracketed error-message string (the original text only sits in
originalText). -/
theorem C3_counterexample :
    (translateText true (fun _ => Except.error "Connection refused") 0
        "Ahoj" "EN-US" []).1 =
      TranslateReturn.record
        { originalText := "Ahoj",
          translatedText := "[Translation Error: Connection refused]",
          sourceLanguage := "cs", targetLanguage := "EN-US",
          errMsg := some "Connection refused", fromCache := false } ∧
    "[Translation Error: Connection refused]" ≠ "Ahoj" :=
  ⟨by decide, by decide⟩

/-- Claim C3 as amended: on a backend failure for non-empty input and a
cache miss, translateText returns (without throwing: the function is total)
a record whose translatedText is the bracketed error message, whose
originalText is the input, and whose error field carries the message; the
cache is not populated. -/
theorem C3_translate_failure (backend : String → Except String String)
    (now : Int) (text targetLanguage msg : String) (c : Cache)
    (hne : (jsTrim text).length ≠ 0)
    (hmiss : (getFromCache now (getCacheKey text targetLanguage) c).1 = none)
    (hfail : backend text = Except.error msg) :
    translateText true backend now text targetLanguage c =
      (TranslateReturn.record
        { originalText := text,
          translatedText := "[Translation Error: " ++ msg ++ "]",
          sourceLanguage := "cs", targetLanguage := targetLanguage,
          errMsg := some msg, fromCache := false },
        (getFromCache now (getCacheKey text targetLanguage) c).2, 1) := by
  unfold translateText
  rcases hg : getFromCache now (getCacheKey text targetLanguage) c with ⟨o, c1⟩
  rw [hg] at hmiss
  simp only at hmiss
  subst hmiss
  simp [hne, hfail, hg]

/-- Witness for the amended claim C3 at a concrete failing backend. -/
theorem C3_witness :
    translateText true (fun _ => Except.error "boom") 3 "Dobry den" "EN-US" [] =
      (TranslateReturn.record
        { originalText := "Dobry den",
          translatedText := "[Translation Error: boom]",
          sourceLanguage := "cs", targetLanguage := "EN-US",
          errMsg := some "boom", fromCache := false },
        (getFromCache 3 (getCacheKey "Dobry den" "EN-US") []).2, 1) :=
  C3_translate_failure (fun _ => Except.error "boom") 3 "Dobry den" "EN-US"
    "boom" [] (by decide) (by decide) rfl

/-- Claim C4, code bug: deepgram-nova-3 is a registered provider id (it is
listed in STT_PROVIDERS, advertised in the error event, and implemented in
transcribeBuffer), yet setSTTProvider throws for it, because
provider.toUpperCase().replace(hyphen, underscore) replaces only the first
hyphen, producing the key DEEPGRAM_NOVA-3 which is not a key of
STT_PROVIDERS; the handler then leaves the active provider unchanged and
emits stt-provider-error listing all three ids.  The other two registered
ids switch correctly. -/
theorem C4_deepgram_provider_rejected :
    "deepgram-nova-3" ∈ sttProviderIds ∧
    setSTTProvider "deepgram-nova-3" = none ∧
    sttProviderKey "deepgram-nova-3" = "DEEPGRAM_NOVA-3" ∧
    setSTTProvider "google-speech" = some "google-speech" ∧
    setSTTProvider "openai-whisper" = some "openai-whisper" ∧
    (∀ currentProvider : String,
      handleSetSttProvider currentProvider "deepgram-nova-3" =
        (currentProvider, SttProviderEvent.errorEv
          ["google-speech", "openai-whisper", "deepgram-nova-3"])) := by
  refine ⟨by decide, by decide, by decide, by decide, by decide,
    fun currentProvider => ?_⟩
  have h : setSTTProvider "deepgram-nova-3" = none := by decide
  simp [handleSetSttProvider, h, sttProviderIds, STT_PROVIDERS]

/-- Claim C9: whichever of the three registered providers is active, when
its backend call fails the registry transcribeBuffer returns an empty
transcript, zero confidence and an error indicator; being a total function
it never propagates the failure to the session. -/
theorem C9_provider_failure_isolated :
    (∀ (whisperApi : Except String String)
        (deepgramApi : Except String (Option String × Option ℚ))
        (langMap : String → String) (audioBuffer : List Int)
        (language msg : String),
      (sttTranscribeBuffer "google-speech" (Except.error msg) whisperApi
          deepgramApi langMap audioBuffer language).transcript = "" ∧
      (sttTranscribeBuffer "google-speech" (Except.error msg) whisperApi
          deepgramApi langMap audioBuffer language).confidence = 0 ∧
      (sttTranscribeBuffer "google-speech" (Except.error msg) whisperApi
          deepgramApi langMap audioBuffer language).errMsg.isSome = true) ∧
    (∀ (googleApi : Except String (Option (Option String × Option ℚ)))
        (deepgramApi : Except String (Option String × Option ℚ))
        (langMap : String → String) (audioBuffer : List Int)
        (language msg : String),
      (sttTranscribeBuffer "openai-whisper" googleApi (Except.error msg)
          deepgramApi langMap audioBuffer language).transcript = "" ∧
      (sttTranscribeBuffer "openai-whisper" googleApi (Except.error msg)
          deepgramApi langMap audioBuffer language).confidence = 0 ∧
      (sttTranscribeBuffer "openai-whisper" googleApi (Except.error msg)
          deepgramApi langMap audioBuffer language).errMsg.isSome = true) ∧
    (∀ (googleApi : Except String (Option (Option String × Option ℚ)))
        (whisperApi : Except String String)
        (langMap : String → String) (audioBuffer : List Int)
        (language msg : String),
      (sttTranscribeBuffer "deepgram-nova-3" googleApi whisperApi
          (Except.error msg) langMap audioBuffer language).transcript = "" ∧
      (sttTranscribeBuffer "deepgram-nova-3" googleApi whisperApi
          (Except.error msg) langMap audioBuffer language).confidence = 0 ∧
      (sttTranscribeBuffer "deepgram-nova-3" googleApi whisperApi
          (Except.error msg) langMap audioBuffer language).errMsg.isSome = true) := by
  refine ⟨?_, ?_, ?_⟩
  · intro whisperApi deepgramApi langMap audioBuffer language msg
    have hdisp : sttTranscribeBuffer "google-speech" (Except.error msg)
        whisperApi deepgramApi langMap audioBuffer language =
        googleTranscribeBuffer (Except.error msg) audioBuffer language := by
      simp [sttTranscribeBuffer]
    rw [hdisp]
    by_cases h : 2 * audioBuffer.length < minBufferSize
    · simp [googleTranscribeBuffer, h]
    · simp [googleTranscribeBuffer, h]
  · intro googleApi deepgramApi langMap audioBuffer language msg
    have hdisp : sttTranscribeBuffer "openai-whisper" googleApi
        (Except.error msg) deepgramApi langMap audioBuffer language =
        whisperTranscribeBuffer (Except.error msg) audioBuffer
          (langMap language) := by
      simp [sttTranscribeBuffer]
    rw [hdisp]
    by_cases h : 2 * audioBuffer.length < minBufferSize
    · simp [whisperTranscribeBuffer, h]
    · simp [whisperTranscribeBuffer, h]
  · intro googleApi whisperApi langMap audioBuffer language msg
    have hdisp : sttTranscribeBuffer "deepgram-nova-3" googleApi whisperApi
        (Except.error msg) langMap audioBuffer language =
        deepgramTranscribeBuffer (Except.error msg) (langMap language) := by
      simp [sttTranscribeBuffer]
    rw [hdisp]
    simp [deepgramTranscribeBuffer]

theorem isEmpty_false_of_ne {s : String} (h : s ≠ "") : s.isEmpty = false := by
  rw [Bool.eq_false_iff]
  intro hh
  exact h ((String.isEmpty_iff s).mp hh)

/-- Claim C7: while a session is transcribing, the audio-data handler
dispatches a segment to the recognition pipeline exactly when the appended
buffer reaches the byte threshold and the minimum interval since the last
dispatch has elapsed; otherwise the frame is only appended and no
recognition call is made. -/
theorem C7_dispatch_condition (stt : SttOracle) (punct : PunctOracle)
    (transOracle : TransOracle) (c : ClientConnection) (audioData : List Int)
    (now : Int) (htr : c.isTranscribing = true) :
    ((audioDataHandler stt punct transOracle c audioData now).1 = true ↔
      (bufferSizeThreshold ≤ 2 * (c.audioBuffer.length + audioData.length) ∧
        minAudioDuration ≤ now - c.lastTranscriptionTime)) ∧
    ((audioDataHandler stt punct transOracle c audioData now).1 = false →
      audioDataHandler stt punct transOracle c audioData now =
        (false, [], { c with audioBuffer := c.audioBuffer ++ audioData }, 0)) := by
  have hnot : ¬ ((!c.isTranscribing) = true) := by rw [htr]; simp
  have hform : (audioDataHandler stt punct transOracle c audioData now).1 =
      audioDataShouldDispatch
        { c with audioBuffer := c.audioBuffer ++ audioData } now := by
    unfold audioDataHandler
    rw [if_neg hnot]
    by_cases hd : audioDataShouldDispatch
        { c with audioBuffer := c.audioBuffer ++ audioData } now = true
    · rw [if_pos hd, hd]
    · rw [if_neg hd]
      simp [Bool.eq_false_iff.mpr hd]
  constructor
  · rw [hform]
    simp [audioDataShouldDispatch, List.length_append]
  · intro hfalse
    rw [hform] at hfalse
    unfold audioDataHandler
    rw [if_neg hnot, if_neg (by simp [hfalse])]

/-- Witness for claim C7 at a transcribing session: a 16000-sample frame on
an empty buffer at time 2000 meets both conditions, so the iff and the
negative branch instantiate. -/
theorem C7_witness :
    ((audioDataHandler (fun _ _ => ⟨"", 0, none⟩)
        (fun _ _ _ _ => Except.ok ⟨false, ""⟩)
        (fun _ _ _ => Except.ok TranslateValue.nullLike)
        c7conn (List.replicate 16000 0) 2000).1 = true ↔
      (bufferSizeThreshold ≤ 2 *
          (c7conn.audioBuffer.length + (List.replicate 16000 (0 : Int)).length) ∧
        minAudioDuration ≤ 2000 - c7conn.lastTranscriptionTime)) ∧
    ((audioDataHandler (fun _ _ => ⟨"", 0, none⟩)
        (fun _ _ _ _ => Except.ok ⟨false, ""⟩)
        (fun _ _ _ => Except.ok TranslateValue.nullLike)
        c7conn (List.replicate 16000 0) 2000).1 = false →
      audioDataHandler (fun _ _ => ⟨"", 0, none⟩)
        (fun _ _ _ _ => Except.ok ⟨false, ""⟩)
        (fun _ _ _ => Except.ok TranslateValue.nullLike)
        c7conn (List.replicate 16000 0) 2000 =
        (false, [],
          { c7conn with
            audioBuffer := c7conn.audioBuffer ++ List.replicate 16000 0 }, 0)) :=
  C7_dispatch_condition (fun _ _ => ⟨"", 0, none⟩)
    (fun _ _ _ _ => Except.ok ⟨false, ""⟩)
    (fun _ _ _ => Except.ok TranslateValue.nullLike)
    c7conn (List.replicate 16000 0) 2000 (by decide)

/-- Claim C8: a dispatched segment whose samples all stay within the
silence threshold produces no event, makes no recognition call, and resets
the buffer and the dispatch timestamp. -/
theorem C8_silence_suppressed (stt : SttOracle) (punct : PunctOracle)
    (transOracle : TransOracle) (now : Int) (c : ClientConnection)
    (hquiet : ∀ s ∈ c.audioBuffer, s.natAbs ≤ 100) :
    processBatchTranscription stt punct transOracle now c =
      ([], { c with lastTranscriptionTime := now, audioBuffer := [] }, 0) := by
  have hs : hasSound c.audioBuffer = false := by
    rw [Bool.eq_false_iff]
    intro hh
    simp only [hasSound, List.any_eq_true] at hh
    obtain ⟨s, hmem, hgt⟩ := hh
    have := hquiet s hmem
    simp at hgt
    omega
  unfold processBatchTranscription
  simp [hs]

/-- Witness for claim C8 on a concrete near-silent buffer. -/
theorem C8_witness :
    processBatchTranscription (fun _ _ => ⟨"tichy text", 1, none⟩)
      (fun _ _ _ _ => Except.ok ⟨false, ""⟩)
      (fun _ _ _ => Except.ok TranslateValue.nullLike) 42 c8conn =
      ([], { c8conn with lastTranscriptionTime := 42, audioBuffer := [] }, 0) :=
  C8_silence_suppressed (fun _ _ => ⟨"tichy text", 1, none⟩)
    (fun _ _ _ _ => Except.ok ⟨false, ""⟩)
    (fun _ _ _ => Except.ok TranslateValue.nullLike) 42 c8conn
    (by decide)

/-- Claim C1: the duplicate checks of the interim and final paths coincide
with the spec formulation (non-duplicate when the last transcript is empty,
the length grows or shrinks by more than the 20 / 10 percent ratio, or
neither string contains the other), and a recognition transcript that trims
to the empty string is never emitted by either path. -/
theorem C1_duplicate_suppression :
    (∀ newText lastText : String,
      isSignificantlyDifferent newText lastText =
        specWorthEmitting false newText lastText) ∧
    (∀ newText lastText : String,
      isFinalDifferent newText lastText =
        specWorthEmitting true newText lastText) ∧
    (∀ (stt : SttOracle) (punct : PunctOracle) (transOracle : TransOracle)
        (now : Int) (c : ClientConnection),
      jsTrim (stt c.audioBuffer c.speechLanguage).transcript = "" →
      (processBatchTranscription stt punct transOracle now c).1 = []) ∧
    (∀ (stt : SttOracle) (punct : PunctOracle) (transOracle : TransOracle)
        (c : ClientConnection),
      jsTrim (stt c.audioBuffer c.speechLanguage).transcript = "" →
      (stopTranscription stt punct transOracle c).1 = []) := by
  refine ⟨fun n l => rfl, fun n l => rfl, ?_, ?_⟩
  · intro stt punct transOracle now c h
    unfold processBatchTranscription
    by_cases hS : hasSound c.audioBuffer = true
    · simp [hS, h]
    · simp [Bool.eq_false_iff.mpr hS]
  · intro stt punct transOracle c h
    unfold stopTranscription
    by_cases hb : c.audioBuffer.isEmpty = true
    · simp [hb]
    · simp [Bool.eq_false_iff.mpr hb, h]

/-- Witness for claim C1: the dedup equivalences at concrete strings and
both empty-transcript suppressions at a concrete session whose recognizer
returns whitespace. -/
theorem C1_witness :
    (isSignificantlyDifferent "abcd" "ab" = specWorthEmitting false "abcd" "ab") ∧
    (isFinalDifferent "abcd" "ab" = specWorthEmitting true "abcd" "ab") ∧
    (processBatchTranscription (fun _ _ => ⟨"   ", 0, none⟩)
      (fun _ _ _ _ => Except.ok ⟨false, ""⟩)
      (fun _ _ _ => Except.ok TranslateValue.nullLike) 7
      { initialClientConnection with
        isTranscribing := true
        audioBuffer := [500] }).1 = [] ∧
    (stopTranscription (fun _ _ => ⟨"   ", 0, none⟩)
      (fun _ _ _ _ => Except.ok ⟨false, ""⟩)
      (fun _ _ _ => Except.ok TranslateValue.nullLike)
      { initialClientConnection with
        isTranscribing := true
        audioBuffer := [500] }).1 = [] :=
  ⟨C1_duplicate_suppression.1 "abcd" "ab",
   C1_duplicate_suppression.2.1 "abcd" "ab",
   C1_duplicate_suppression.2.2.1 (fun _ _ => ⟨"   ", 0, none⟩)
     (fun _ _ _ _ => Except.ok ⟨false, ""⟩)
     (fun _ _ _ => Except.ok TranslateValue.nullLike) 7
     { initialClientConnection with
       isTranscribing := true
       audioBuffer := [500] } (by decide),
   C1_duplicate_suppression.2.2.2 (fun _ _ => ⟨"   ", 0, none⟩)
     (fun _ _ _ _ => Except.ok ⟨false, ""⟩)
     (fun _ _ _ => Except.ok TranslateValue.nullLike)
     { initialClientConnection with
       isTranscribing := true
       audioBuffer := [500] } (by decide)⟩

/-- Counterexample for claim C10 as stated: on a fresh session (empty
lastTranslation tracking value) a run whose computed translation is the
empty string has translation equal to the tracking value, yet the emit
stage still emits, because the check first tests lastTranslation for
truthiness. -/
theorem C10_counterexample :
    initialClientConnection.lastTranslation = "" ∧
    (interimEmitStage "x" "" 1 0 initialClientConnection).1 =
      [PipelineEvent.transcriptionResult "x" "" 1 false true] :=
  ⟨rfl, by decide⟩

/-- Claim C10 as amended: when the session's lastTranslation tracking value
is non-empty and the computed punctuated translation equals it, the interim
emit stage emits nothing, while the tracking values are still updated to
the new transcript, translation and dispatch time, and the retained buffer
is a suffix of the pre-run buffer. -/
theorem C10_translation_level_suppression (punctuatedTranscript
    punctuatedTranslation : String) (confidence : ℚ) (now : Int)
    (c : ClientConnection)
    (heq : punctuatedTranslation = c.lastTranslation)
    (hne : c.lastTranslation ≠ "") :
    (interimEmitStage punctuatedTranscript punctuatedTranslation confidence
        now c).1 = [] ∧
    (interimEmitStage punctuatedTranscript punctuatedTranslation confidence
        now c).2.lastTranscript = punctuatedTranscript ∧
    (interimEmitStage punctuatedTranscript punctuatedTranslation confidence
        now c).2.lastTranslation = punctuatedTranslation ∧
    (interimEmitStage punctuatedTranscript punctuatedTranslation confidence
        now c).2.lastTranscriptionTime = now ∧
    (interimEmitStage punctuatedTranscript punctuatedTranslation confidence
        now c).2.audioBuffer <:+ c.audioBuffer := by
  have hisEmpty : c.lastTranslation.isEmpty = false := isEmpty_false_of_ne hne
  have hbeq : (punctuatedTranslation != c.lastTranslation) = false := by
    simp [heq]
  unfold interimEmitStage
  simp only [hisEmpty, hbeq, Bool.or_self, Bool.false_eq_true, if_false]
  refine ⟨trivial, trivial, trivial, trivial, ?_⟩
  by_cases hkeep : keepBufferSize < 2 * c.audioBuffer.length
  · simp only [hkeep, if_true]
    exact List.drop_suffix _ _
  · simp only [hkeep, if_false]
    exact List.suffix_refl _

/-- Witness for the amended claim C10 at a concrete suppressed run. -/
theorem C10_witness :
    (interimEmitStage "den" "dobry" 1 9 c10conn).1 = [] ∧
    (interimEmitStage "den" "dobry" 1 9 c10conn).2.lastTranscript = "den" ∧
    (interimEmitStage "den" "dobry" 1 9 c10conn).2.lastTranslation = "dobry" ∧
    (interimEmitStage "den" "dobry" 1 9 c10conn).2.lastTranscriptionTime = 9 ∧
    (interimEmitStage "den" "dobry" 1 9 c10conn).2.audioBuffer <:+
      c10conn.audioBuffer :=
  C10_translation_level_suppression "den" "dobry" 1 9 c10conn (by decide)
    (by decide)

/-- Counterexample for claim C2 as stated: on stop-transcription with a
non-empty pending buffer the handler does run the pipeline once and emits
the final result, but it never emits a transcription-stopped event (the
claimed response is absent from the emitted events). -/
theorem C2_counterexample :
    (stopTranscription (fun _ _ => ⟨"dobry den vsem lidem", 1, none⟩)
        (fun text _ _ _ => Except.ok ⟨false, text⟩)
        (fun _ _ _ => Except.ok (TranslateValue.objv "good day everyone" false))
        c2conn).1 =
      [PipelineEvent.transcriptionResult "dobry den vsem lidem"
        "good day everyone" 1 true true] ∧
    PipelineEvent.transcriptionStopped ∉
      (stopTranscription (fun _ _ => ⟨"dobry den vsem lidem", 1, none⟩)
        (fun text _ _ _ => Except.ok ⟨false, text⟩)
        (fun _ _ _ => Except.ok (TranslateValue.objv "good day everyone" false))
        c2conn).1 :=
  ⟨by decide, by decide⟩

/-- Claim C2 as amended: stop-transcription with a non-empty pending buffer
performs exactly one recognition run; at most one event is emitted and any
emitted event is a final transcription-result; no transcription-stopped
event is ever emitted; the session stops transcribing; and the buffer is
cleared except when the final transcript is non-empty but suppressed as too
similar to the last interim, in which case the early return leaves the
buffer untouched. -/
theorem C2_stop_final_flush (stt : SttOracle) (punct : PunctOracle)
    (transOracle : TransOracle) (c : ClientConnection)
    (hbuf : c.audioBuffer ≠ []) :
    (stopTranscription stt punct transOracle c).2.2 = 1 ∧
    (∀ e ∈ (stopTranscription stt punct transOracle c).1,
      ∃ t tl conf, e = PipelineEvent.transcriptionResult t tl conf true true) ∧
    (stopTranscription stt punct transOracle c).1.length ≤ 1 ∧
    PipelineEvent.transcriptionStopped ∉
      (stopTranscription stt punct transOracle c).1 ∧
    (stopTranscription stt punct transOracle c).2.1.isTranscribing = false ∧
    ((jsTrim (stt c.audioBuffer c.speechLanguage).transcript ≠ "" ∧
        isFinalDifferent (jsTrim (stt c.audioBuffer c.speechLanguage).transcript)
          c.lastTranscript = false →
      (stopTranscription stt punct transOracle c).2.1.audioBuffer =
        c.audioBuffer) ∧
     (jsTrim (stt c.audioBuffer c.speechLanguage).transcript = "" ∨
        isFinalDifferent (jsTrim (stt c.audioBuffer c.speechLanguage).transcript)
          c.lastTranscript = true →
      (stopTranscription stt punct transOracle c).2.1.audioBuffer = [])) := by
  have hb : c.audioBuffer.isEmpty = false := by
    rw [Bool.eq_false_iff]
    intro hh
    exact hbuf (List.isEmpty_iff.mp hh)
  unfold stopTranscription
  simp only [hb, Bool.false_eq_true, if_false]
  by_cases he : jsTrim (stt c.audioBuffer c.speechLanguage).transcript = ""
  · simp only [he] at *
    simp [he]
  · simp only [he, if_false]
    by_cases hdiff : isFinalDifferent
        (jsTrim (stt c.audioBuffer c.speechLanguage).transcript)
        c.lastTranscript = true
    · simp [hdiff, he]
    · have hd2 := Bool.eq_false_iff.mpr hdiff
      simp [hd2, he, hdiff]

/-- Witness for the amended claim C2 at a concrete stop with a pending
buffer. -/
theorem C2_witness :
    (stopTranscription (fun _ _ => ⟨"ahoj svete", 1, none⟩)
        (fun text _ _ _ => Except.ok ⟨false, text⟩)
        (fun _ _ _ => Except.ok (TranslateValue.strv "hello world"))
        c2wconn).2.2 = 1 ∧
    (∀ e ∈ (stopTranscription (fun _ _ => ⟨"ahoj svete", 1, none⟩)
        (fun text _ _ _ => Except.ok ⟨false, text⟩)
        (fun _ _ _ => Except.ok (TranslateValue.strv "hello world"))
        c2wconn).1,
      ∃ t tl conf, e = PipelineEvent.transcriptionResult t tl conf true true) ∧
    (stopTranscription (fun _ _ => ⟨"ahoj svete", 1, none⟩)
        (fun text _ _ _ => Except.ok ⟨false, text⟩)
        (fun _ _ _ => Except.ok (TranslateValue.strv "hello world"))
        c2wconn).1.length ≤ 1 ∧
    PipelineEvent.transcriptionStopped ∉
      (stopTranscription (fun _ _ => ⟨"ahoj svete", 1, none⟩)
        (fun text _ _ _ => Except.ok ⟨false, text⟩)
        (fun _ _ _ => Except.ok (TranslateValue.strv "hello world"))
        c2wconn).1 ∧
    (stopTranscription (fun _ _ => ⟨"ahoj svete", 1, none⟩)
        (fun text _ _ _ => Except.ok ⟨false, text⟩)
        (fun _ _ _ => Except.ok (TranslateValue.strv "hello world"))
        c2wconn).2.1.isTranscribing = false ∧
    ((jsTrim ((fun (_ : List Int) (_ : String) =>
          (⟨"ahoj svete", 1, none⟩ : SttResult)) c2wconn.audioBuffer
          c2wconn.speechLanguage).transcript ≠ "" ∧
        isFinalDifferent (jsTrim ((fun (_ : List Int) (_ : String) =>
          (⟨"ahoj svete", 1, none⟩ : SttResult)) c2wconn.audioBuffer
          c2wconn.speechLanguage).transcript) c2wconn.lastTranscript = false →
      (stopTranscription (fun _ _ => ⟨"ahoj svete", 1, none⟩)
        (fun text _ _ _ => Except.ok ⟨false, text⟩)
        (fun _ _ _ => Except.ok (TranslateValue.strv "hello world"))
        c2wconn).2.1.audioBuffer = c2wconn.audioBuffer) ∧
     (jsTrim ((fun (_ : List Int) (_ : String) =>
          (⟨"ahoj svete", 1, none⟩ : SttResult)) c2wconn.audioBuffer
          c2wconn.speechLanguage).transcript = "" ∨
        isFinalDifferent (jsTrim ((fun (_ : List Int) (_ : String) =>
          (⟨"ahoj svete", 1, none⟩ : SttResult)) c2wconn.audioBuffer
          c2wconn.speechLanguage).transcript) c2wconn.lastTranscript = true →
      (stopTranscription (fun _ _ => ⟨"ahoj svete", 1, none⟩)
        (fun text _ _ _ => Except.ok ⟨false, text⟩)
        (fun _ _ _ => Except.ok (TranslateValue.strv "hello world"))
        c2wconn).2.1.audioBuffer = [])) :=
  C2_stop_final_flush (fun _ _ => ⟨"ahoj svete", 1, none⟩)
    (fun text _ _ _ => Except.ok ⟨false, text⟩)
    (fun _ _ _ => Except.ok (TranslateValue.strv "hello world"))
    c2wconn (by decide)
